import Mathlib

/-!
Verification development for the GJtemplate spreadsheet-ingestion pipeline
(`GJtemplate/views.py`).  The Python source is shallowly embedded: cells of the
uploaded sheet are `Option String` (with `none` standing for pandas `NaN`),
a data frame is a list of column names together with rows of cells, and each
stage of `api_upload_tracker` (drop blank rows, critical-column filter,
embedded-header filters, rename, reindex/fillna, per-field cleaning) is a
Lean function mirroring the corresponding source lines.
-/

set_option maxHeartbeats 1000000

namespace GJ

/-- The six ASCII whitespace characters that Python's `str.strip()` removes
(the Unicode-only whitespace code points are irrelevant to this code base). -/
def isPySpace (c : Char) : Bool :=
  c = ' ' || c = '\t' || c = '\n' || c = '\r' || c = '\x0b' || c = '\x0c'

/-- `str.strip()` on the character list: drop whitespace from both ends. -/
def pyStripL (l : List Char) : List Char :=
  ((l.dropWhile isPySpace).reverse.dropWhile isPySpace).reverse

/-- Python `str.strip()`. -/
def pyStrip (s : String) : String := String.mk (pyStripL s.toList)

/-- Python `str.upper()` (ASCII; all strings in this code base are ASCII). -/
def pyUpper (s : String) : String := String.mk (s.toList.map Char.toUpper)

/-- Python `str.lower()` (ASCII). -/
def pyLower (s : String) : String := String.mk (s.toList.map Char.toLower)

/-- Python `str.replace(c, '')`: remove every occurrence of character `c`. -/
def removeAll (c : Char) (s : String) : String :=
  String.mk (s.toList.filter (fun x => x != c))

/-- Executable substring test on character lists. -/
def infixOfB (p : List Char) : List Char → Bool
  | [] => p.isEmpty
  | a :: t => p.isPrefixOf (a :: t) || infixOfB p t

/-- Python `pat in s` (substring containment). -/
def strContains (pat s : String) : Bool := infixOfB pat.toList s.toList

/-- A sheet cell as seen by pandas: `none` is `NaN` (empty/missing cell). -/
abbrev Cell := Option String

/-- Python `str(value)` applied to a cell (`astype(str)` turns `NaN` into
the string `"nan"`). -/
def pyStr (c : Cell) : String :=
  match c with
  | none => "nan"
  | some s => s

/-- `views.py` line 19: the definitive list of all 20 canonical columns. -/
def ALL_CLIENT_HEADERS : List String :=
  ["sr", "clientName", "gstin", "clientType", "senior",
   "multiRegistration", "member", "turnover", "papilioId",
   "gstr9Status", "gstr9cStatus", "proposalStatus",
   "targetDate", "gstr9Arn", "gstr9Date", "gstr9cArn",
   "gstr9cDate", "mailSent", "papilioUpdate", "remarks"]

/-- `views.py` line 488: the Excel-header → canonical-field mapping,
keys copied verbatim (including the embedded spaces and the
`Multi Registraion` typo). -/
def EXCEL_COLUMN_MAPPING : List (String × String) :=
  [("Sr", "sr"),
   ("Client Name", "clientName"),
   ("GSTIN", "gstin"),
   ("Client Type", "clientType"),
   ("Senior", "senior"),
   ("Multi Registraion", "multiRegistration"),
   ("Member", "member"),
   (" Turnover ", "turnover"),
   (" Papilio ID ", "papilioId"),
   ("GSTR-9", "gstr9Status"),
   ("GSTR-9C", "gstr9cStatus"),
   ("Billing Sheet", "proposalStatus"),
   ("Target Date Return to be kept ready for filing", "targetDate"),
   ("GSTR-9 ARN", "gstr9Arn"),
   ("GSTR-9 Date", "gstr9Date"),
   ("GSTR-9C ARN", "gstr9cArn"),
   ("GSTR-9C Date", "gstr9cDate"),
   ("Completion mail Sent to Client", "mailSent"),
   ("Update of Papilio Service", "papilioUpdate"),
   ("Remarks", "remarks")]

/-- `views.py` line 511: `FINAL_HEADERS = ALL_CLIENT_HEADERS`. -/
def FINAL_HEADERS : List String := ALL_CLIENT_HEADERS

/-- `views.py` line 523, `_clean_status`:
`pd.isna(value) or str(value).strip() == ''` → `'Pending'`, otherwise the
chained substring checks on `str(value).upper().replace(' ','').replace('-','').strip()`. -/
def _clean_status (value : Cell) : String :=
  match value with
  | none => "Pending"
  | some v =>
    if pyStrip v = "" then "Pending"
    else
      let upper_value := pyStrip (removeAll '-' (removeAll ' ' (pyUpper v)))
      if strContains "WIP" upper_value || strContains "INPROGRESS" upper_value then
        "In Progress"
      else if strContains "NA" upper_value || strContains "NOTAPPLICABLE" upper_value then
        "Not Applicable"
      else if strContains "FILED" upper_value then "Filed"
      else pyStrip v

/-- The status normalization rule exactly as the specification words it
(spec §4.4): empty/missing → Pending; otherwise uppercase, strip spaces and
hyphens, then the ordered substring checks; final fallback is the trimmed
original.  The spec does not mention the trailing `.strip()` the code applies
to the uppercased value; this definition therefore omits it, and the
refinement theorem for claim C2 shows the two agree on every input. -/
def statusSpecRule (value : Cell) : String :=
  match value with
  | none => "Pending"
  | some v =>
    if pyStrip v = "" then "Pending"
    else
      let u := removeAll '-' (removeAll ' ' (pyUpper v))
      if strContains "WIP" u || strContains "INPROGRESS" u then "In Progress"
      else if strContains "NA" u || strContains "NOTAPPLICABLE" u then "Not Applicable"
      else if strContains "FILED" u then "Filed"
      else pyStrip v

/-- `views.py` line 616: the `multiRegistration` replacement dictionary
`{'Multiple': 'Yes', 'Single': 'No', '': 'No'}` (pandas `Series.replace`
substitutes whole values that match exactly; everything else is unchanged). -/
def multiRegReplace (v : String) : String :=
  if v = "Multiple" then "Yes"
  else if v = "Single" then "No"
  else if v = "" then "No"
  else v

/-- A pandas data frame after `read_excel(..., header=2)`: the column names
and the data rows (each row's cells aligned positionally with `cols`). -/
structure DF where
  cols : List String
  rows : List (List Cell)
deriving DecidableEq

/-- `df[name]` for one row: the cell under the first column called `name`
(`none` when the column is absent or the row has no cell there). -/
def cellOf : List String → List Cell → String → Cell
  | [], _, _ => none
  | _ :: _, [], _ => none
  | c :: cs, v :: vs, name => if c = name then v else cellOf cs vs name

/-- `views.py` line 571: `df.dropna(how='all')` — drop rows whose cells are
all `NaN`. -/
def dropAllNaN (df : DF) : DF :=
  { df with rows := df.rows.filter (fun r => r.any Option.isSome) }

/-- `views.py` line 568: `CRITICAL_COLS_TO_CHECK = ['Client Name']`. -/
def CRITICAL_COLS_TO_CHECK : List String := ["Client Name"]

/-- `views.py` lines 573-578: keep only rows where at least one available
critical column is not null; skipped when no critical column is present. -/
def criticalFilter (df : DF) : DF :=
  let available_critical_cols :=
    CRITICAL_COLS_TO_CHECK.filter (fun c => df.cols.contains c)
  if available_critical_cols.isEmpty then df
  else
    { df with
      rows := df.rows.filter (fun r =>
        available_critical_cols.any (fun c => (cellOf df.cols r c).isSome)) }

/-- `views.py` lines 582-588: when an `Sr` column exists, drop rows whose
`Sr` value (via `astype(str).str.strip().str.lower()`) equals `"sr"`. -/
def srFilter (df : DF) : DF :=
  if df.cols.contains "Sr" then
    { df with
      rows := df.rows.filter (fun r =>
        pyLower (pyStrip (pyStr (cellOf df.cols r "Sr"))) != "sr") }
  else df

/-- `views.py` lines 595-600: when a `Client Name` column exists, drop rows
whose `Client Name` value (stringified, stripped, lowercased) equals
`"not applicable"`. -/
def notApplicableFilter (df : DF) : DF :=
  if df.cols.contains "Client Name" then
    { df with
      rows := df.rows.filter (fun r =>
        pyLower (pyStrip (pyStr (cellOf df.cols r "Client Name"))) != "not applicable") }
  else df

/-- The four row filters of `api_upload_tracker`, in source order. -/
def rowFilters (df : DF) : DF :=
  notApplicableFilter (srFilter (criticalFilter (dropAllNaN df)))

/-- `views.py` line 609 (`df.rename(columns=EXCEL_COLUMN_MAPPING)`): a column
label maps through the dictionary when it is a key, else stays itself. -/
def renameHeader (h : String) : String :=
  match EXCEL_COLUMN_MAPPING.lookup h with
  | some c => c
  | none => h

/-- `views.py` lines 614-619: the per-field cleaning applied to `df_final`
(`turnover` is reassigned unchanged; `multiRegistration` goes through the
replacement dict; the three status columns go through `_clean_status`). -/
def normalizeField (field : String) (v : String) : String :=
  if field = "multiRegistration" then multiRegReplace v
  else if field = "gstr9Status" || field = "gstr9cStatus" || field = "proposalStatus" then
    _clean_status (some v)
  else v

/-- One canonical record as produced by `df_final.to_dict('records')`:
an ordered field-name/value association list. -/
abbrev Rec := List (String × String)

/-- `views.py` lines 609-628 for one filtered row: rename the columns, then
`reindex(columns=FINAL_HEADERS)` (take the cell under canonical name `f`,
`NaN` when no column bears it), then `.fillna('')`, then the per-field
cleaning.  `renamedCols` is the renamed column list of the filtered frame. -/
def recordOfRow (renamedCols : List String) (r : List Cell) : Rec :=
  FINAL_HEADERS.map (fun f =>
    (f, normalizeField f ((cellOf renamedCols r f).getD "")))

/-- The ingestion pipeline from the data frame read off the chosen sheet
(`header=2`) to the record list handed to `_write_clients_to_csv`:
`views.py` lines 560 (strip column labels) through 628. -/
def pipelineRecords (cols : List String) (rows : List (List Cell)) : List Rec :=
  let df0 : DF := { cols := cols.map pyStrip, rows := rows }
  let df4 := rowFilters df0
  let renamedCols := df4.cols.map renameHeader
  df4.rows.map (fun r => recordOfRow renamedCols r)

/-- One sheet of the uploaded workbook, with the grid already read at
`header=2` (the fixed header-row policy of `views.py` line 557): `cols` are
the raw header-row labels, `rows` the data rows below them. -/
structure WSheet where
  name : String
  cols : List String
  rows : List (List Cell)
deriving DecidableEq

/-- `views.py` lines 551-554: prefer the sheet named exactly `preferred`;
otherwise fall back to the workbook's first sheet.  `none` exactly when the
workbook has no sheets (in the source, `xls.sheet_names[0]` raises there). -/
def locateSheet (wb : List WSheet) (preferred : String) : Option WSheet :=
  match wb.find? (fun s => s.name == preferred) with
  | some s => some s
  | none => wb.head?

/-- The locate/read/filter/map/normalize stages inside the first `try` block
of `api_upload_tracker` (lines 549-632).  `readFails` injects the other
in-`try` failure modes (corrupt sheet, mapping error) that a shallow
embedding cannot produce from the grid itself; any failure yields the
`"Error processing data mapping"` 500 response path. -/
def pipelineStages (wb : List WSheet) (readFails : Bool) :
    Except String (List Rec) :=
  match locateSheet wb "Tracker" with
  | none => Except.error "Error processing data mapping"
  | some s =>
    if readFails then Except.error "Error processing data mapping"
    else Except.ok (pipelineRecords s.cols s.rows)

/-- Result of one `api_upload_tracker` call: the dataset stored in
`input_csv.csv` afterwards, the sequence of `_write_clients_to_csv`
overwrite calls made, and the HTTP-level outcome (`ok` carries the count). -/
structure ImportOutcome where
  stored : List Rec
  writes : List (List Rec)
  response : Except String Nat

/-- `views.py` lines 536-646, `api_upload_tracker`: on any exception inside
the processing `try` block, return the 500 response without touching the
store; otherwise call `_write_clients_to_csv(records)` once (line 636) and
report the record count. -/
def api_upload_tracker (stored : List Rec) (wb : List WSheet)
    (readFails : Bool) : ImportOutcome :=
  match pipelineStages wb readFails with
  | Except.error e => { stored := stored, writes := [], response := Except.error e }
  | Except.ok records =>
    { stored := records
      writes := [records]
      response := Except.ok records.length }

/-- The flat-file store: file name → value list of that single-column CSV
(the header row written by `_write_single_column_csv` is constant per file
and abstracted away). -/
def FS : Type := String → List String

/-- `_write_single_column_csv`: overwrite one file, leave the rest alone. -/
def writeFile (fs : FS) (file : String) (vals : List String) : FS :=
  fun f => if f = file then vals else fs f

/-- The master/reference lists returned by `api_master_data`. -/
structure MasterData where
  seniors : List String
  members : List String
  proposalStatuses : List String
  gstr9Statuses : List String
  gstr9cStatuses : List String
  customColumns : List String
deriving DecidableEq

/-- `views.py` lines 165-180, `api_master_data`: read the five master CSVs
(both GSTR lists come from `gstr_status_master.csv`). -/
def api_master_data (fs : FS) : MasterData :=
  { seniors := fs "seniors.csv"
    members := fs "members.csv"
    proposalStatuses := fs "proposal_status_master.csv"
    gstr9Statuses := fs "gstr_status_master.csv"
    gstr9cStatuses := fs "gstr_status_master.csv"
    customColumns := fs "custom_columns.csv" }

/-- `views.py` lines 319-339, `api_add_proposal_status`: strip the posted
status, reject empty and duplicates (no write), else append to
`proposal_status.csv`. -/
def api_add_proposal_status (fs : FS) (raw : String) : FS :=
  let status := pyStrip raw
  if status = "" then fs
  else
    let statuses := fs "proposal_status.csv"
    if statuses.contains status then fs
    else writeFile fs "proposal_status.csv" (statuses ++ [status])

/-- `views.py` lines 342-356, `api_remove_proposal_status`: filter the
stripped status out of `proposal_status.csv` and write the file back. -/
def api_remove_proposal_status (fs : FS) (raw : String) : FS :=
  let status := pyStrip raw
  writeFile fs "proposal_status.csv"
    ((fs "proposal_status.csv").filter (fun s => s != status))

/-- `views.py` lines 360-377, `api_add_gstr9_status`: reject duplicates,
else append to `gstr9_status.csv` (no empty-status check in the source). -/
def api_add_gstr9_status (fs : FS) (raw : String) : FS :=
  let status := pyStrip raw
  let statuses := fs "gstr9_status.csv"
  if statuses.contains status then fs
  else writeFile fs "gstr9_status.csv" (statuses ++ [status])

/-- `views.py` lines 380-394, `api_remove_gstr9_status`. -/
def api_remove_gstr9_status (fs : FS) (raw : String) : FS :=
  let status := pyStrip raw
  writeFile fs "gstr9_status.csv"
    ((fs "gstr9_status.csv").filter (fun s => s != status))

/-- `views.py` lines 398-415, `api_add_gstr9c_status`. -/
def api_add_gstr9c_status (fs : FS) (raw : String) : FS :=
  let status := pyStrip raw
  let statuses := fs "gstr9c_status.csv"
  if statuses.contains status then fs
  else writeFile fs "gstr9c_status.csv" (statuses ++ [status])

/-- `views.py` lines 418-432, `api_remove_gstr9c_status`. -/
def api_remove_gstr9c_status (fs : FS) (raw : String) : FS :=
  let status := pyStrip raw
  writeFile fs "gstr9c_status.csv"
    ((fs "gstr9c_status.csv").filter (fun s => s != status))

/-! ### Helper lemmas -/

theorem infixOfB_iff (p : List Char) (l : List Char) :
    infixOfB p l = true ↔ p <:+: l := by
  induction l with
  | nil => simp [infixOfB, List.isEmpty_iff]
  | cons a t ih => simp [infixOfB, ih, List.infix_cons_iff]

theorem dropWhile_cons_head {α : Type} {p : α → Bool} :
    ∀ (l : List α) (c : α) (t : List α), l.dropWhile p = c :: t → p c = false := by
  intro l
  induction l with
  | nil => intro c t h; simp [List.dropWhile] at h
  | cons a l ih =>
    intro c t h
    rw [List.dropWhile_cons] at h
    split at h
    · exact ih c t h
    · cases h
      simp_all

theorem infix_dropWhile {p : List Char} (hne : p ≠ [])
    (hp : ∀ c ∈ p, isPySpace c = false) :
    ∀ l : List Char, p <:+: l → p <:+: l.dropWhile isPySpace := by
  intro l
  induction l with
  | nil => simp
  | cons a t ih =>
    intro h
    rw [List.dropWhile_cons]
    split
    · rcases List.infix_cons_iff.mp h with hpre | hinf
      · obtain ⟨c, p', rfl⟩ := List.exists_cons_of_ne_nil hne
        rcases List.cons_prefix_cons.mp hpre with ⟨rfl, _⟩
        have hc := hp c (by simp)
        simp_all
      · exact ih hinf
    · exact h

theorem reverse_dropWhile_front (A : List Char) :
    (A.reverse.dropWhile isPySpace).reverse <+: A := by
  have s1 : (A.reverse.dropWhile isPySpace).reverse.reverse <:+ A.reverse := by
    simpa using List.dropWhile_suffix (l := A.reverse) isPySpace
  exact List.reverse_suffix.mp s1

theorem pyStripL_within (l : List Char) : pyStripL l <:+: l := by
  exact (reverse_dropWhile_front (l.dropWhile isPySpace)).isInfix.trans
    (List.dropWhile_suffix isPySpace).isInfix

theorem infix_pyStripL {p : List Char} (hne : p ≠ [])
    (hp : ∀ c ∈ p, isPySpace c = false) (l : List Char) :
    (p <:+: pyStripL l) ↔ p <:+: l := by
  constructor
  · intro h
    exact h.trans (pyStripL_within l)
  · intro h
    unfold pyStripL
    have h1 : p <:+: l.dropWhile isPySpace := infix_dropWhile hne hp l h
    have h2 : p.reverse <:+: (l.dropWhile isPySpace).reverse :=
      List.reverse_infix.mpr h1
    have hner : p.reverse ≠ [] := by simpa using hne
    have hpr : ∀ c ∈ p.reverse, isPySpace c = false := by
      intro c hc
      exact hp c (List.mem_reverse.mp hc)
    have h3 := infix_dropWhile hner hpr _ h2
    rw [← List.reverse_infix]
    simpa using h3

theorem strContains_pyStrip (pat s : String) (hne : pat.toList ≠ [])
    (hp : ∀ c ∈ pat.toList, isPySpace c = false) :
    strContains pat (pyStrip s) = strContains pat s := by
  apply Bool.coe_iff_coe.mp
  show strContains pat (pyStrip s) = true ↔ strContains pat s = true
  unfold strContains pyStrip
  rw [infixOfB_iff, infixOfB_iff]
  exact infix_pyStripL hne hp s.toList

theorem pyStripL_cons_head (l : List Char) (c : Char) (t : List Char)
    (h : pyStripL l = c :: t) : isPySpace c = false := by
  unfold pyStripL at h
  have hpre := reverse_dropWhile_front (l.dropWhile isPySpace)
  rw [h] at hpre
  obtain ⟨r, hr⟩ := hpre
  exact dropWhile_cons_head l c (t ++ r) (by rw [← hr]; simp)

theorem pyStrip_head_not_space (s : String) (c : Char) (t : List Char)
    (h : pyStrip s = String.mk (c :: t)) : isPySpace c = false := by
  unfold pyStrip at h
  exact pyStripL_cons_head s.toList c t (congrArg String.data h)

theorem lookup_map_pair (l : List String) (g : String → String) (f : String)
    (hf : f ∈ l) : (l.map (fun x => (x, g x))).lookup f = some (g f) := by
  induction l with
  | nil => cases hf
  | cons a t ih =>
    rcases List.mem_cons.mp hf with rfl | hmem
    · simp
    · by_cases hfa : f = a
      · subst hfa; simp
      · have hba : (f == a) = false := by simpa using hfa
        simp only [List.map_cons, List.lookup_cons, hba, cond_false]
        exact ih hmem

theorem cellOf_eq_none (cs : List String) (vs : List Cell) (name : String)
    (h : name ∉ cs) : cellOf cs vs name = none := by
  induction cs generalizing vs with
  | nil => cases vs <;> rfl
  | cons c cs ih =>
    cases vs with
    | nil => rfl
    | cons v vs =>
      rw [cellOf]
      rw [if_neg (by intro hc; exact h (by simp [hc]))]
      exact ih vs (by intro hc; exact h (by simp [hc]))

/-- The critical-column filter as claim C3 words it (spec §4.2 step 2):
applied only when a critical column is present AND non-empty in at least one
row overall.  Kept for comparison with `criticalFilter`, the filter the
source actually implements. -/
def criticalFilterClaim (df : DF) : DF :=
  let available_critical_cols :=
    CRITICAL_COLS_TO_CHECK.filter (fun c => df.cols.contains c)
  if available_critical_cols.isEmpty then df
  else if df.rows.any (fun r =>
      available_critical_cols.any (fun c => (cellOf df.cols r c).isSome)) then
    { df with
      rows := df.rows.filter (fun r =>
        available_critical_cols.any (fun c => (cellOf df.cols r c).isSome)) }
  else df

/-- The row filters as claim C3 describes them, with the code's critical
filter replaced by the claim's conditional version. -/
def rowFiltersClaim (df : DF) : DF :=
  notApplicableFilter (srFilter (criticalFilterClaim (dropAllNaN df)))

theorem dropAllNaN_cols (df : DF) : (dropAllNaN df).cols = df.cols := rfl

theorem criticalFilter_cols (df : DF) : (criticalFilter df).cols = df.cols := by
  simp only [criticalFilter]
  split <;> rfl

theorem srFilter_cols (df : DF) : (srFilter df).cols = df.cols := by
  simp only [srFilter]
  split <;> rfl

theorem notApplicableFilter_cols (df : DF) :
    (notApplicableFilter df).cols = df.cols := by
  simp only [notApplicableFilter]
  split <;> rfl

theorem rowFilters_cols (df : DF) : (rowFilters df).cols = df.cols := by
  unfold rowFilters
  rw [notApplicableFilter_cols, srFilter_cols, criticalFilter_cols,
    dropAllNaN_cols]

theorem lookup_mapping_mem {t c : String}
    (h : EXCEL_COLUMN_MAPPING.lookup t = some c) :
    (t, c) ∈ EXCEL_COLUMN_MAPPING := by
  rcases List.lookup_eq_some_iff.mp h with ⟨l₁, l₂, heq, h₂⟩
  rw [heq]
  simp

theorem renameHeader_eq_turnover {t : String} (h : renameHeader t = "turnover") :
    t = " Turnover " ∨ t = "turnover" := by
  unfold renameHeader at h
  rcases hl : EXCEL_COLUMN_MAPPING.lookup t with _ | c
  · right
    rw [hl] at h
    exact h
  · left
    rw [hl] at h
    subst h
    have hmem := lookup_mapping_mem hl
    simp [EXCEL_COLUMN_MAPPING] at hmem
    exact hmem

theorem renameHeader_eq_papilioId {t : String} (h : renameHeader t = "papilioId") :
    t = " Papilio ID " ∨ t = "papilioId" := by
  unfold renameHeader at h
  rcases hl : EXCEL_COLUMN_MAPPING.lookup t with _ | c
  · right
    rw [hl] at h
    exact h
  · left
    rw [hl] at h
    subst h
    have hmem := lookup_mapping_mem hl
    simp [EXCEL_COLUMN_MAPPING] at hmem
    exact hmem

theorem pyStrip_ne_of_head_space (s w : String) (c : Char) (t : List Char)
    (hw : w.data = c :: t) (hc : isPySpace c = true) : pyStrip s ≠ w := by
  intro h
  have h3 : pyStripL s.toList = c :: t := by
    have h2 := congrArg String.data h
    rw [hw] at h2
    exact h2
  have h4 := pyStripL_cons_head s.toList c t h3
  rw [h4] at hc
  cases hc

theorem pyStrip_ne_turnover_key (s : String) : pyStrip s ≠ " Turnover " :=
  pyStrip_ne_of_head_space s " Turnover " ' ' "Turnover ".toList
    (by decide) (by decide)

theorem pyStrip_ne_papilio_key (s : String) : pyStrip s ≠ " Papilio ID " :=
  pyStrip_ne_of_head_space s " Papilio ID " ' ' "Papilio ID ".toList
    (by decide) (by decide)

theorem normalizeField_empty (f : String) :
    normalizeField f "" =
      (if f = "gstr9Status" ∨ f = "gstr9cStatus" ∨ f = "proposalStatus"
       then "Pending"
       else if f = "multiRegistration" then "No" else "") := by
  unfold normalizeField
  by_cases h1 : f = "multiRegistration"
  · subst h1
    rw [if_pos rfl, if_neg (by decide), if_pos rfl]
    decide
  · rw [if_neg h1]
    by_cases h2 : f = "gstr9Status"
    · subst h2
      rw [if_pos (by decide), if_pos (by simp)]
      decide
    · by_cases h3 : f = "gstr9cStatus"
      · subst h3
        rw [if_pos (by decide), if_pos (by simp)]
        decide
      · by_cases h4 : f = "proposalStatus"
        · subst h4
          rw [if_pos (by decide), if_pos (by simp)]
          decide
        · rw [if_neg (by simp [h2, h3, h4]), if_neg (by simp [h2, h3, h4]),
            if_neg h1]

theorem pipeline_keys (cols : List String) (rows : List (List Cell)) :
    ∀ rec ∈ pipelineRecords cols rows,
      rec.map Prod.fst = ALL_CLIENT_HEADERS := by
  intro rec hrec
  simp only [pipelineRecords] at hrec
  rcases List.mem_map.mp hrec with ⟨r, hr, rfl⟩
  unfold recordOfRow
  rw [List.map_map]
  show FINAL_HEADERS.map (fun f => f) = ALL_CLIENT_HEADERS
  simp [FINAL_HEADERS]

theorem pipeline_unmatched_field (cols : List String) (rows : List (List Cell))
    (f : String) (hf : f ∈ FINAL_HEADERS)
    (hun : ∀ h ∈ cols, renameHeader (pyStrip h) ≠ f) :
    ∀ rec ∈ pipelineRecords cols rows,
      rec.lookup f = some (normalizeField f "") := by
  intro rec hrec
  simp only [pipelineRecords] at hrec
  rcases List.mem_map.mp hrec with ⟨r, hr, rfl⟩
  unfold recordOfRow
  rw [lookup_map_pair FINAL_HEADERS _ f hf]
  have hnone : cellOf
      ((rowFilters { cols := cols.map pyStrip, rows := rows }).cols.map renameHeader)
      r f = none := by
    apply cellOf_eq_none
    rw [rowFilters_cols]
    intro hmem
    rcases List.mem_map.mp hmem with ⟨t, ht, hrt⟩
    rcases List.mem_map.mp ht with ⟨h0, hh0, rfl⟩
    exact hun h0 hh0 hrt
  rw [hnone]
  rfl

/-! ### Claim theorems -/

/-- C2: the status normalization rule returns `Pending` for empty/missing
values; otherwise it uppercases the value, removes spaces and hyphens, and
runs the `WIP`/`INPROGRESS`, `NA`/`NOTAPPLICABLE`, `FILED` substring checks
in that fixed order, first match winning, falling back to the trimmed
original value with casing unchanged.  Stated as a refinement: the code's
`_clean_status` coincides with `statusSpecRule`, the rule written from the
spec's own wording, on every input. -/
theorem C2_status_rule_refines_spec (value : Cell) :
    _clean_status value = statusSpecRule value := by
  cases value with
  | none => rfl
  | some v =>
    simp only [_clean_status, statusSpecRule]
    rw [strContains_pyStrip "WIP" (removeAll '-' (removeAll ' ' (pyUpper v)))
          (by decide) (by decide),
        strContains_pyStrip "INPROGRESS" (removeAll '-' (removeAll ' ' (pyUpper v)))
          (by decide) (by decide),
        strContains_pyStrip "NA" (removeAll '-' (removeAll ' ' (pyUpper v)))
          (by decide) (by decide),
        strContains_pyStrip "NOTAPPLICABLE" (removeAll '-' (removeAll ' ' (pyUpper v)))
          (by decide) (by decide),
        strContains_pyStrip "FILED" (removeAll '-' (removeAll ' ' (pyUpper v)))
          (by decide) (by decide)]

/-- C6 counterexample: the claim says `_clean_status` maps `'N/A'` to
`'Not Applicable'`, but the code only removes spaces and hyphens, so the
slash survives, `'NA'` is not a substring of `'N/A'`, and the input falls
through to the trimmed-original branch. -/
theorem C6_counterexample :
    _clean_status (some "N/A") = "N/A"
    ∧ ("N/A" : String) ≠ "Not Applicable" := by decide

/-- C6 amended: the status normalization maps the spec's listed examples as
stated except `'N/A'`, which passes through unchanged (the `/` is neither a
space nor a hyphen, so no rule matches): `'In-Progress'` → `'In Progress'`,
`''` → `'Pending'`, `'N/A'` → `'N/A'`, `'Filed on 12/1'` → `'Filed'`,
`'Some Other Text'` unchanged. -/
theorem C6_spec_examples :
    _clean_status (some "In-Progress") = "In Progress"
    ∧ _clean_status (some "") = "Pending"
    ∧ _clean_status (some "N/A") = "N/A"
    ∧ _clean_status (some "Filed on 12/1") = "Filed"
    ∧ _clean_status (some "Some Other Text") = "Some Other Text" := by decide

/-- C7: the value normalizer maps `multiRegistration` value `'Multiple'` to
`'Yes'`, `'Single'` to `'No'`, the empty string — including an originally
missing cell, which `fillna('')` turns into the empty string before the
replacement runs — to `'No'`, and passes every other literal value through
unchanged. -/
theorem C7_multi_registration (v : String) :
    multiRegReplace "Multiple" = "Yes"
    ∧ multiRegReplace "Single" = "No"
    ∧ multiRegReplace "" = "No"
    ∧ normalizeField "multiRegistration" ((none : Cell).getD "") = "No"
    ∧ (v ≠ "Multiple" → v ≠ "Single" → v ≠ "" → multiRegReplace v = v) := by
  refine ⟨by decide, by decide, by decide, by decide, ?_⟩
  intro h1 h2 h3
  unfold multiRegReplace
  rw [if_neg h1, if_neg h2, if_neg h3]

/-- C7 witness: `'Yes'` passes through unchanged. -/
theorem C7_witness : multiRegReplace "Yes" = "Yes" :=
  (C7_multi_registration "Yes").2.2.2.2 (by decide) (by decide) (by decide)

/-- C8 counterexample: the claim says the header mapping has exactly 19
entries; it has 20. -/
theorem C8_counterexample : EXCEL_COLUMN_MAPPING.length ≠ 19 := by decide

/-- C8 amended: the fixed header mapping contains exactly 20 entries with
pairwise-distinct source-header keys (including the whitespace variants
`' Turnover '` and `' Papilio ID '`), its values are exactly the 20
canonical field names in canonical order, and the canonical field `sr` is
mapped from the source header `'Sr'`. -/
theorem C8_mapping_shape :
    EXCEL_COLUMN_MAPPING.length = 20
    ∧ EXCEL_COLUMN_MAPPING.map Prod.snd = ALL_CLIENT_HEADERS
    ∧ EXCEL_COLUMN_MAPPING.lookup "Sr" = some "sr"
    ∧ (" Turnover ", "turnover") ∈ EXCEL_COLUMN_MAPPING
    ∧ (" Papilio ID ", "papilioId") ∈ EXCEL_COLUMN_MAPPING
    ∧ (EXCEL_COLUMN_MAPPING.map Prod.fst).Nodup := by decide

/-- C10: the six add/remove status endpoints touch only
`proposal_status.csv`, `gstr9_status.csv` or `gstr9c_status.csv`, while
`api_master_data` reads `seniors.csv`, `members.csv`,
`proposal_status_master.csv`, `gstr_status_master.csv` and
`custom_columns.csv`; hence every one of the six endpoints leaves the
master-data response unchanged. -/
theorem C10_status_endpoints_master_frame (fs : FS) (raw : String) :
    api_master_data (api_add_proposal_status fs raw) = api_master_data fs
    ∧ api_master_data (api_remove_proposal_status fs raw) = api_master_data fs
    ∧ api_master_data (api_add_gstr9_status fs raw) = api_master_data fs
    ∧ api_master_data (api_remove_gstr9_status fs raw) = api_master_data fs
    ∧ api_master_data (api_add_gstr9c_status fs raw) = api_master_data fs
    ∧ api_master_data (api_remove_gstr9c_status fs raw) = api_master_data fs := by
  refine ⟨?_, ?_, ?_, ?_, ?_, ?_⟩ <;>
    · simp only [api_add_proposal_status, api_remove_proposal_status,
        api_add_gstr9_status, api_remove_gstr9_status,
        api_add_gstr9c_status, api_remove_gstr9c_status]
      first
      | rfl
      | (split_ifs <;> simp [api_master_data, writeFile])

/-- C4: the sheet locator returns the sheet named `'Tracker'` by exact
case-sensitive match when present, otherwise the first sheet in declared
order, and yields no sheet (the source raises, aborting the import) exactly
when the workbook has zero sheets; in particular a workbook without a
`'Tracker'` sheet but with at least one sheet is located without error. -/
theorem C4_sheet_locator (wb : List WSheet) :
    ((∃ s ∈ wb, s.name = "Tracker") →
        ∃ s, locateSheet wb "Tracker" = some s ∧ s.name = "Tracker")
    ∧ ((∀ s ∈ wb, s.name ≠ "Tracker") → locateSheet wb "Tracker" = wb.head?)
    ∧ (locateSheet wb "Tracker" = none ↔ wb = []) := by
  refine ⟨?_, ?_, ?_⟩
  · rintro ⟨s, hs, hn⟩
    unfold locateSheet
    rcases hf : wb.find? (fun x => x.name == "Tracker") with _ | t
    · exfalso
      rw [List.find?_eq_none] at hf
      exact hf s hs (by simp [hn])
    · refine ⟨t, ?_, by simpa using List.find?_some hf⟩
      rw [hf]
  · intro hall
    unfold locateSheet
    rw [List.find?_eq_none.mpr (by intro x hx; simpa using hall x hx)]
  · unfold locateSheet
    constructor
    · intro h
      rcases hf : wb.find? (fun x => x.name == "Tracker") with _ | t
      · rw [hf] at h
        simpa using h
      · rw [hf] at h
        cases h
    · rintro rfl
      rfl

/-- C4 witness: a workbook whose only sheet is named `'Other'` falls back to
that sheet, and the empty workbook is exactly the failing case. -/
theorem C4_witness :
    locateSheet [{ name := "Other", cols := [], rows := [] }] "Tracker"
      = some { name := "Other", cols := [], rows := [] }
    ∧ (locateSheet ([] : List WSheet) "Tracker" = none ↔ ([] : List WSheet) = []) := by
  constructor
  · have h := (C4_sheet_locator [{ name := "Other", cols := [], rows := [] }]).2.1
      (by decide)
    simpa using h
  · exact (C4_sheet_locator []).2.2

/-- C5: per import invocation the record-store overwrite
(`_write_clients_to_csv`, rewriting `input_csv.csv`) runs at most once and
only with the complete result of a successful locate/filter/map/normalize
run; any failure in those stages surfaces the error to the caller and
leaves the previously stored dataset untouched — no partial write. -/
theorem C5_no_incomplete_write (stored : List Rec) (wb : List WSheet)
    (readFails : Bool) :
    (api_upload_tracker stored wb readFails).writes.length ≤ 1
    ∧ (∀ e, pipelineStages wb readFails = Except.error e →
        (api_upload_tracker stored wb readFails).stored = stored
        ∧ (api_upload_tracker stored wb readFails).writes = []
        ∧ (api_upload_tracker stored wb readFails).response = Except.error e)
    ∧ (∀ rs, pipelineStages wb readFails = Except.ok rs →
        (api_upload_tracker stored wb readFails).writes = [rs]
        ∧ (api_upload_tracker stored wb readFails).stored = rs
        ∧ (api_upload_tracker stored wb readFails).response = Except.ok rs.length) := by
  unfold api_upload_tracker
  rcases hp : pipelineStages wb readFails with e | rs <;> simp

/-- C5 witness: importing an empty workbook fails in the locate stage and
performs no write, leaving a previously stored record set unchanged. -/
theorem C5_witness :
    (api_upload_tracker [[("sr", "1")]] [] false).stored = [[("sr", "1")]]
    ∧ (api_upload_tracker [[("sr", "1")]] [] false).writes = [] := by
  have h := (C5_no_incomplete_write [[("sr", "1")]] [] false).2.1
    "Error processing data mapping" (by rfl)
  exact ⟨h.1, h.2.1⟩

/-- C1 counterexample: a sheet with a column literally named `remarks` —
which is not a key of the header mapping — still populates the canonical
`remarks` field (`reindex` keeps any column already bearing a canonical
name), and the unpopulated `gstr9Status` field ends up `'Pending'` after
normalization, not the empty string; both contradict the claim that
unmapped source columns are dropped and unpopulated canonical fields hold
the empty string. -/
theorem C1_counterexample :
    (pipelineRecords ["Client Name", "remarks"] [[some "Acme", some "x"]]).map
        (fun rec => (rec.lookup "remarks", rec.lookup "gstr9Status"))
      = [(some "x", some "Pending")]
    ∧ EXCEL_COLUMN_MAPPING.lookup "remarks" = none := by decide

/-- C1 amended: every record produced by the import pipeline contains
exactly the 20 canonical fields in the fixed canonical order, regardless of
the source columns; and every canonical field `f` that no source column
reaches — neither through the header mapping nor by a trimmed source header
literally equal to `f` — holds the post-normalization default: `'Pending'`
for the three status fields, `'No'` for `multiRegistration`, and the empty
string for every other field. -/
theorem C1_schema_amended (cols : List String) (rows : List (List Cell)) :
    ∀ rec ∈ pipelineRecords cols rows,
      rec.map Prod.fst = ALL_CLIENT_HEADERS
      ∧ ∀ f ∈ ALL_CLIENT_HEADERS,
          (∀ h ∈ cols, renameHeader (pyStrip h) ≠ f) →
          rec.lookup f =
            some (if f = "gstr9Status" ∨ f = "gstr9cStatus" ∨ f = "proposalStatus"
                  then "Pending"
                  else if f = "multiRegistration" then "No" else "") := by
  intro rec hrec
  refine ⟨pipeline_keys cols rows rec hrec, ?_⟩
  intro f hf hun
  rw [pipeline_unmatched_field cols rows f hf hun rec hrec, normalizeField_empty]

/-- C1 witness: a one-column sheet yields a record carrying all 20 fields in
order, with `turnover` defaulting to the empty string. -/
theorem C1_witness :
    ([("sr", ""), ("clientName", "A"), ("gstin", ""), ("clientType", ""),
      ("senior", ""), ("multiRegistration", "No"), ("member", ""),
      ("turnover", ""), ("papilioId", ""), ("gstr9Status", "Pending"),
      ("gstr9cStatus", "Pending"), ("proposalStatus", "Pending"),
      ("targetDate", ""), ("gstr9Arn", ""), ("gstr9Date", ""),
      ("gstr9cArn", ""), ("gstr9cDate", ""), ("mailSent", ""),
      ("papilioUpdate", ""), ("remarks", "")] : Rec).map Prod.fst
        = ALL_CLIENT_HEADERS
    ∧ ([("sr", ""), ("clientName", "A"), ("gstin", ""), ("clientType", ""),
        ("senior", ""), ("multiRegistration", "No"), ("member", ""),
        ("turnover", ""), ("papilioId", ""), ("gstr9Status", "Pending"),
        ("gstr9cStatus", "Pending"), ("proposalStatus", "Pending"),
        ("targetDate", ""), ("gstr9Arn", ""), ("gstr9Date", ""),
        ("gstr9cArn", ""), ("gstr9cDate", ""), ("mailSent", ""),
        ("papilioUpdate", ""), ("remarks", "")] : Rec).lookup "turnover"
        = some "" := by
  have h := C1_schema_amended ["Client Name"] [[some "A"]]
    [("sr", ""), ("clientName", "A"), ("gstin", ""), ("clientType", ""),
     ("senior", ""), ("multiRegistration", "No"), ("member", ""),
     ("turnover", ""), ("papilioId", ""), ("gstr9Status", "Pending"),
     ("gstr9cStatus", "Pending"), ("proposalStatus", "Pending"),
     ("targetDate", ""), ("gstr9Arn", ""), ("gstr9Date", ""),
     ("gstr9cArn", ""), ("gstr9cDate", ""), ("mailSent", ""),
     ("papilioUpdate", ""), ("remarks", "")] (by decide)
  refine ⟨h.1, ?_⟩
  rw [h.2 "turnover" (by decide) (by decide)]
  decide

/-- C3 counterexample: a sheet whose `Client Name` column is present but
empty in every row.  Per the claim's wording the critical-column filter is
skipped (the column is non-empty in no row), so the row `['1', missing]`
should survive; the code applies the filter whenever the column is present
and drops the row, so the pipeline yields zero records. -/
theorem C3_counterexample :
    (rowFiltersClaim
        { cols := ["Sr", "Client Name"], rows := [[some "1", none]] }).rows
      = [[some "1", none]]
    ∧ (rowFilters
        { cols := ["Sr", "Client Name"], rows := [[some "1", none]] }).rows = []
    ∧ pipelineRecords ["Sr", "Client Name"] [[some "1", none]] = [] := by decide

/-- C3 amended: a row survives the four-stage row filter iff it came from
the input rows, has at least one non-missing cell, has a non-missing
`Client Name` cell whenever that column is present (the code applies the
critical-column filter on mere presence of the column, with no
"non-empty in at least one row" precondition), does not carry the literal
`'sr'` (after trimming and case-folding) under a present `Sr` column, and
does not carry the literal `'not applicable'` under a present `Client Name`
column; a filter whose target column is absent is a no-op, no filter can
fail, the column list is untouched, and an empty result is valid. -/
theorem C3_row_filter_amended (df : DF) (r : List Cell) :
    (r ∈ (rowFilters df).rows ↔
      r ∈ df.rows
      ∧ r.any Option.isSome = true
      ∧ ("Client Name" ∈ df.cols →
          (cellOf df.cols r "Client Name").isSome = true)
      ∧ ("Sr" ∈ df.cols →
          ¬pyLower (pyStrip (pyStr (cellOf df.cols r "Sr"))) = "sr")
      ∧ ("Client Name" ∈ df.cols →
          ¬pyLower (pyStrip (pyStr (cellOf df.cols r "Client Name")))
            = "not applicable"))
    ∧ (rowFilters df).cols = df.cols := by
  refine ⟨?_, rowFilters_cols df⟩
  by_cases hcn : "Client Name" ∈ df.cols <;> by_cases hsr : "Sr" ∈ df.cols <;>
    simp [rowFilters, notApplicableFilter, srFilter, criticalFilter,
      dropAllNaN, CRITICAL_COLS_TO_CHECK, List.contains, hcn, hsr,
      List.mem_filter, and_assoc] <;>
    tauto

/-- C3 witness: a genuine data row with both `Sr` and `Client Name` filled
survives the row filter. -/
theorem C3_witness :
    [some ("1" : String), some "Acme"] ∈
      (rowFilters
        { cols := ["Sr", "Client Name"], rows := [[some "1", some "Acme"]] }).rows := by
  apply ((C3_row_filter_amended
      { cols := ["Sr", "Client Name"], rows := [[some "1", some "Acme"]] }
      [some "1", some "Acme"]).1).mpr
  decide

/-- C9: trimmed sheet headers never equal the padded mapping keys
`' Turnover '` and `' Papilio ID '` (a stripped string cannot start with a
space), so those two entries can never fire; consequently, in any workbook
none of whose trimmed headers is literally `turnover` or `papilioId`, every
produced record has `turnover` and `papilioId` equal to the empty string. -/
theorem C9_dead_whitespace_keys :
    (∀ s : String, pyStrip s ≠ " Turnover " ∧ pyStrip s ≠ " Papilio ID ")
    ∧ ∀ (cols : List String) (rows : List (List Cell)),
        (∀ h ∈ cols, pyStrip h ≠ "turnover" ∧ pyStrip h ≠ "papilioId") →
        ∀ rec ∈ pipelineRecords cols rows,
          rec.lookup "turnover" = some ""
          ∧ rec.lookup "papilioId" = some "" := by
  constructor
  · intro s
    exact ⟨pyStrip_ne_turnover_key s, pyStrip_ne_papilio_key s⟩
  · intro cols rows hcols rec hrec
    have hunT : ∀ h ∈ cols, renameHeader (pyStrip h) ≠ "turnover" := by
      intro h0 hh0 heq
      rcases renameHeader_eq_turnover heq with hcase | hcase
      · exact pyStrip_ne_turnover_key h0 hcase
      · exact (hcols h0 hh0).1 hcase
    have hunP : ∀ h ∈ cols, renameHeader (pyStrip h) ≠ "papilioId" := by
      intro h0 hh0 heq
      rcases renameHeader_eq_papilioId heq with hcase | hcase
      · exact pyStrip_ne_papilio_key h0 hcase
      · exact (hcols h0 hh0).2 hcase
    constructor
    · rw [pipeline_unmatched_field cols rows "turnover" (by decide) hunT rec hrec]
      decide
    · rw [pipeline_unmatched_field cols rows "papilioId" (by decide) hunP rec hrec]
      decide

/-- C9 witness: a two-column workbook with no `turnover`/`papilioId` header
produces its record with both fields empty. -/
theorem C9_witness :
    ([("sr", ""), ("clientName", "Acme"), ("gstin", "22A"), ("clientType", ""),
      ("senior", ""), ("multiRegistration", "No"), ("member", ""),
      ("turnover", ""), ("papilioId", ""), ("gstr9Status", "Pending"),
      ("gstr9cStatus", "Pending"), ("proposalStatus", "Pending"),
      ("targetDate", ""), ("gstr9Arn", ""), ("gstr9Date", ""),
      ("gstr9cArn", ""), ("gstr9cDate", ""), ("mailSent", ""),
      ("papilioUpdate", ""), ("remarks", "")] : Rec).lookup "turnover"
        = some ""
    ∧ ([("sr", ""), ("clientName", "Acme"), ("gstin", "22A"), ("clientType", ""),
        ("senior", ""), ("multiRegistration", "No"), ("member", ""),
        ("turnover", ""), ("papilioId", ""), ("gstr9Status", "Pending"),
        ("gstr9cStatus", "Pending"), ("proposalStatus", "Pending"),
        ("targetDate", ""), ("gstr9Arn", ""), ("gstr9Date", ""),
        ("gstr9cArn", ""), ("gstr9cDate", ""), ("mailSent", ""),
        ("papilioUpdate", ""), ("remarks", "")] : Rec).lookup "papilioId"
        = some "" :=
  C9_dead_whitespace_keys.2 ["Client Name", "GSTIN"] [[some "Acme", some "22A"]]
    (by decide)
    [("sr", ""), ("clientName", "Acme"), ("gstin", "22A"), ("clientType", ""),
     ("senior", ""), ("multiRegistration", "No"), ("member", ""),
     ("turnover", ""), ("papilioId", ""), ("gstr9Status", "Pending"),
     ("gstr9cStatus", "Pending"), ("proposalStatus", "Pending"),
     ("targetDate", ""), ("gstr9Arn", ""), ("gstr9Date", ""),
     ("gstr9cArn", ""), ("gstr9cDate", ""), ("mailSent", ""),
     ("papilioUpdate", ""), ("remarks", "")] (by decide)

example : _clean_status (some "In-Progress") = "In Progress" := by decide
example : _clean_status none = "Pending" := by decide
example : _clean_status (some "") = "Pending" := by decide
example : _clean_status (some "N/A") = "N/A" := by decide
example : _clean_status (some "Filed on 12/1") = "Filed" := by decide
example : _clean_status (some "Some Other Text") = "Some Other Text" := by decide
example : _clean_status (some "WIP") = "In Progress" := by decide

end GJ
